import Mathlib

/-!
Verification of the load-test mock servers
(`load-test/mock_server.py` and `load-test/enhanced_mock_server.py`).

Both servers keep global counters guarded by a single lock; every
critical section is atomic, so a run of the server is a sequence of
state transitions.  We embed the handler bodies as pure functions on an
explicit state record and prove the specified properties about runs.

Numeric conventions: Python integers are embedded as `Int` where they
may be decremented (`available_stock`, `concurrent_requests`) and as
`Nat` where they are only ever incremented from 0 (the order counters);
Python floats (response times, rates) are embedded as `ℚ`.
-/

/-- JSON values appearing in the servers' response bodies. -/
inductive JVal where
  | s (v : String)
  | i (v : Int)
  | q (v : ℚ)
  deriving DecidableEq, Repr

/-- A JSON object, as the ordered key/value list the Python dict literal builds. -/
abbrev JObj := List (String × JVal)

/-- Keyed field access in a response body, `body["k"]`. -/
def JObj.lookup (o : JObj) (k : String) : Option JVal :=
  List.lookup k o

/-! ### Decimal rendering of order ids

`order_id = f"ORDER-{order_count:05d}"` renders `order_count` in
standard base-10 notation, left-padded with `'0'` to a minimum width of
five characters.  We embed the decimal rendering with explicit fuel
(structural recursion, so the kernel can evaluate it). -/

/-- Little-endian base-10 digits of `n`, with fuel; `toDecRev f n` is the
digit list of `n` whenever `n ≤ f` (and `[]` for `n = 0`). -/
def toDecRev : Nat → Nat → List Nat
  | 0, _ => []
  | f + 1, n => if n = 0 then [] else (n % 10) :: toDecRev f (n / 10)

/-- The decimal digit characters of `n`, most significant first
(Python's `"%d" % n`). -/
def decDigits (n : Nat) : List Char :=
  if n = 0 then ['0'] else ((toDecRev n n).map Nat.digitChar).reverse

/-- Left-pad a digit string with `'0'` to a minimum width of five
(the `05` in the format `"{:05d}"`). -/
def pad5 (l : List Char) : List Char :=
  List.replicate (5 - l.length) '0' ++ l

/-- The character sequence of `f"ORDER-{n:05d}"`. -/
def orderIdChars (n : Nat) : List Char :=
  'O' :: 'R' :: 'D' :: 'E' :: 'R' :: '-' :: pad5 (decDigits n)

/-- The order-id string `"ORDER-" + n` zero-padded to five digits
(mock_server.py line 20, enhanced_mock_server.py line 47). -/
def orderIdStr (n : Nat) : String :=
  String.mk (orderIdChars n)

/-! ### Enhanced server state (`enhanced_mock_server.py` globals) -/

/-- The global mutable state of `enhanced_mock_server.py` (lines 13-25).
Timestamps are abstract tokens (`Nat`); response times are `ℚ`. -/
structure EState where
  available_stock : Int
  order_count : Nat
  successful_orders : Nat
  failed_orders : Nat
  concurrent_requests : Int
  max_concurrent : Int
  response_times : List ℚ
  order_timestamps : List Nat
  deriving DecidableEq, Repr

/-- Initial enhanced-server state with `INITIAL_STOCK = S` (lines 10, 14-25):
full stock, all counters zero, empty sample lists. -/
def initE (S : Nat) : EState :=
  { available_stock := (S : Int)
    order_count := 0
    successful_orders := 0
    failed_orders := 0
    concurrent_requests := 0
    max_concurrent := 0
    response_times := []
    order_timestamps := [] }

/-- Concurrency-tracking entry (enhanced_mock_server.py lines 35-38):
increment `concurrent_requests` and raise `max_concurrent` if exceeded,
under one lock acquisition. -/
def trackerEnter (s : EState) : EState :=
  let c := s.concurrent_requests + 1
  { s with
    concurrent_requests := c
    max_concurrent := if c > s.max_concurrent then c else s.max_concurrent }

/-- Concurrency-tracking exit (enhanced_mock_server.py lines 92-93, the
`finally` block): decrement `concurrent_requests`. -/
def trackerExit (s : EState) : EState :=
  { s with concurrent_requests := s.concurrent_requests - 1 }

/-- The order-placement path string. -/
def ordersPath : String := "/api/v1/orders"

/-- One `do_POST` invocation of `enhanced_mock_server.py` (lines 28-93) that
completes without an internal error.  `rt` is the measured response time in
milliseconds and `ts` the request timestamp, both inputs from the clock.
Returns the final state, the HTTP status code sent, and the JSON body
(empty for 404). -/
def doPOST (path : String) (rt : ℚ) (ts : Nat) (s : EState) : EState × Nat × JObj :=
  let s1 := trackerEnter s
  if path = ordersPath then
    let s2 := { s1 with order_count := s1.order_count + 1 }
    let oid := orderIdStr s2.order_count
    if s2.available_stock > 0 then
      let s3 := { s2 with
        available_stock := s2.available_stock - 1
        successful_orders := s2.successful_orders + 1
        order_timestamps := s2.order_timestamps ++ [ts] }
      let s4 := { s3 with response_times := s3.response_times ++ [rt] }
      (trackerExit s4, 201,
        [("orderId", JVal.s oid),
         ("status", JVal.s "CONFIRMED"),
         ("message", JVal.s "Order created successfully"),
         ("remainingStock", JVal.i s3.available_stock)])
    else
      let s3 := { s2 with failed_orders := s2.failed_orders + 1 }
      let s4 := { s3 with response_times := s3.response_times ++ [rt] }
      (trackerExit s4, 409,
        [("error", JVal.s "INSUFFICIENT_STOCK"),
         ("message", JVal.s "Insufficient stock for the requested items"),
         ("orderId", JVal.s oid)])
  else
    (trackerExit s1, 404, [])

/-- A run of POST requests: each input is a path plus the clock inputs of
that request.  Returns the final state and the list of status codes sent. -/
def runPostsTrace (inputs : List (String × ℚ × Nat)) (s : EState) : EState × List Nat :=
  match inputs with
  | [] => (s, [])
  | p :: rest =>
    let r := doPOST p.1 p.2.1 p.2.2 s
    let t := runPostsTrace rest r.1
    (t.1, r.2.1 :: t.2)

/-- The final state of a run of POST requests. -/
def runPosts (inputs : List (String × ℚ × Nat)) (s : EState) : EState :=
  (runPostsTrace inputs s).1

/-- Inputs for a run consisting only of order-placement requests. -/
def ordersInputs (l : List (ℚ × Nat)) : List (String × ℚ × Nat) :=
  l.map (fun x => (ordersPath, x))

/-! ### Mock server state (`mock_server.py` globals) -/

/-- The global mutable state of `mock_server.py` (lines 8-11). -/
structure MState where
  available_stock : Int
  order_count : Nat
  successful_orders : Nat
  deriving DecidableEq, Repr

/-- Initial mock-server state with initial stock `S` (line 8). -/
def mockInit (S : Nat) : MState :=
  { available_stock := (S : Int), order_count := 0, successful_orders := 0 }

/-- One `do_POST` invocation of `mock_server.py` (lines 14-43).  Returns the
final state, the HTTP status code, and the JSON body (empty for 404). -/
def mockDoPOST (path : String) (s : MState) : MState × Nat × JObj :=
  if path = ordersPath then
    let s1 := { s with order_count := s.order_count + 1 }
    let oid := orderIdStr s1.order_count
    if s1.available_stock > 0 then
      ({ s1 with
          available_stock := s1.available_stock - 1
          successful_orders := s1.successful_orders + 1 }, 201,
        [("orderId", JVal.s oid),
         ("status", JVal.s "CONFIRMED"),
         ("message", JVal.s "Order created successfully")])
    else
      (s1, 409,
        [("error", JVal.s "INSUFFICIENT_STOCK"),
         ("message", JVal.s "Insufficient stock for the requested items")])
  else
    (s, 404, [])

/-- A run of mock-server POST requests (paths only; the mock server reads
no clock). -/
def mockRun (paths : List String) (s : MState) : MState :=
  paths.foldl (fun st p => (mockDoPOST p st).1) s

/-! ### Metrics snapshot (`do_GET /metrics`, enhanced_mock_server.py lines 95-124) -/

/-- The `summary` block of the metrics JSON (lines 101-112).  `S` is
`INITIAL_STOCK` and `total_time` the elapsed wall-clock seconds. -/
structure MetricsSummary where
  initialStock : Nat
  availableStock : Int
  totalOrders : Nat
  successfulOrders : Nat
  failedOrders : Nat
  successRate : ℚ
  totalTime : ℚ
  avgTPS : ℚ
  maxConcurrentRequests : Int
  deriving DecidableEq, Repr

/-- The `responseTime` block of the metrics JSON (lines 113-118).
`minMs`/`maxMs` embed the JSON keys `min`/`max`. -/
structure RTStats where
  avg : ℚ
  minMs : ℚ
  maxMs : ℚ
  count : Nat
  deriving DecidableEq, Repr

/-- The `summary` block computed by `do_GET /metrics` (lines 101-112):
`successRate = successful_orders / order_count * 100 if order_count > 0 else 0`,
`avgTPS = order_count / total_time if total_time > 0 else 0`. -/
def metricsSummary (S : Nat) (total_time : ℚ) (s : EState) : MetricsSummary :=
  { initialStock := S
    availableStock := s.available_stock
    totalOrders := s.order_count
    successfulOrders := s.successful_orders
    failedOrders := s.failed_orders
    successRate :=
      if s.order_count > 0 then (s.successful_orders : ℚ) / (s.order_count : ℚ) * 100 else 0
    totalTime := total_time
    avgTPS := if total_time > 0 then (s.order_count : ℚ) / total_time else 0
    maxConcurrentRequests := s.max_concurrent }

/-- The `responseTime` block computed by `do_GET /metrics` (lines 99, 113-118):
`avg = sum / len if response_times else 0`, `min`/`max` of the samples
(`0` if empty), `count = len(response_times)`. -/
def responseTimeStats (s : EState) : RTStats :=
  { avg :=
      if s.response_times ≠ [] then s.response_times.sum / (s.response_times.length : ℚ) else 0
    minMs := (s.response_times.min?).getD 0
    maxMs := (s.response_times.max?).getD 0
    count := s.response_times.length }

/-! ### Concurrency tracking as an event trace

Under concurrency the lock serialises the entry blocks (lines 35-38) and
the `finally` blocks (lines 92-93) of all in-flight handlers into some
order; a run of the server is therefore an arbitrary sequence of
enter/exit events on the pair `(concurrent_requests, max_concurrent)`. -/

/-- The concurrency-tracking fragment of the global state. -/
structure TrackSt where
  inFlight : Int
  maxObserved : Int
  deriving DecidableEq, Repr

/-- A lock-serialised concurrency-tracking event: the entry block of some
handler, or the `finally` block of some handler. -/
inductive TEvent where
  | enter
  | exit
  deriving DecidableEq, Repr

/-- One tracking event: entry increments `inFlight` and raises
`maxObserved` if exceeded (lines 36-38); exit decrements `inFlight`
(line 93). -/
def trackStep (t : TrackSt) : TEvent → TrackSt
  | TEvent.enter =>
    let c := t.inFlight + 1
    { inFlight := c
      maxObserved := if c > t.maxObserved then c else t.maxObserved }
  | TEvent.exit => { t with inFlight := t.inFlight - 1 }

/-- Run a sequence of tracking events. -/
def trackRun (evs : List TEvent) (t : TrackSt) : TrackSt :=
  evs.foldl trackStep t

/-- The tracker state at process start (lines 19-20): both counters zero. -/
def trackInit : TrackSt := { inFlight := 0, maxObserved := 0 }

/-! ### `do_POST` with an internal failure

The body of `do_POST` in `enhanced_mock_server.py` runs inside
`try ... finally` (lines 40-93).  An exception can be raised by
`time.sleep` (line 43), by `print` inside the lock (lines 67-71), by
`send_response`/`send_header`/`end_headers` (lines 84-86, 89-90) or by
`self.wfile.write` (line 87); the `finally` block must still decrement
`concurrent_requests`.  `FailPoint` names the earliest raising
statement (or none); the state reflects exactly the updates executed
before the raise, and the `finally` decrement is applied on every path. -/

inductive FailPoint where
  | noFail
  | inSleep
  | inPrint
  | inSendResponse
  | inWrite
  | inSend404
  deriving DecidableEq, Repr

/-- One `do_POST` invocation with a possible internal failure at `fp`.
Returns the final state and `true` iff the body completed without
raising.  Every branch ends in `trackerExit`: that is the `finally`
block. -/
def doPOSTexc (fp : FailPoint) (path : String) (rt : ℚ) (ts : Nat) (s : EState) :
    EState × Bool :=
  let s1 := trackerEnter s
  if path = ordersPath then
    if fp = FailPoint.inSleep then (trackerExit s1, false)
    else
      let s2 := { s1 with order_count := s1.order_count + 1 }
      if s2.available_stock > 0 then
        let s3 := { s2 with
          available_stock := s2.available_stock - 1
          successful_orders := s2.successful_orders + 1
          order_timestamps := s2.order_timestamps ++ [ts] }
        -- the progress print runs only every 100th success (line 64)
        if fp = FailPoint.inPrint ∧ s3.successful_orders % 100 = 0 then
          (trackerExit s3, false)
        else
          let s4 := { s3 with response_times := s3.response_times ++ [rt] }
          if fp = FailPoint.inSendResponse ∨ fp = FailPoint.inWrite then
            (trackerExit s4, false)
          else (trackerExit s4, true)
      else
        let s3 := { s2 with failed_orders := s2.failed_orders + 1 }
        let s4 := { s3 with response_times := s3.response_times ++ [rt] }
        if fp = FailPoint.inSendResponse ∨ fp = FailPoint.inWrite then
          (trackerExit s4, false)
        else (trackerExit s4, true)
  else
    if fp = FailPoint.inSend404 then (trackerExit s1, false)
    else (trackerExit s1, true)

/-! ### Auxiliary definitions for the proofs -/

/-- Decode a decimal character string back to the number it denotes
(leading zeros allowed); used to show the order-id rendering injective. -/
def decodeDec (l : List Char) : Nat :=
  l.foldl (fun a c => 10 * a + (c.toNat - 48)) 0

/-- The ledger invariant of the enhanced server, for initial stock `S`:
stock accounts exactly for the successes, the order count splits into
successes and failures, successes saturate at the stock, and one
response-time sample exists per counted order. -/
def LedgerInv (S : Nat) (s : EState) : Prop :=
  s.available_stock = (S : Int) - (s.successful_orders : Int)
  ∧ s.order_count = s.successful_orders + s.failed_orders
  ∧ s.successful_orders = min s.order_count S
  ∧ s.response_times.length = s.order_count

/-- Correspondence between a mock-server state and an enhanced-server
state: the fields both servers maintain agree. -/
def Corr (m : MState) (e : EState) : Prop :=
  m.available_stock = e.available_stock
  ∧ m.order_count = e.order_count
  ∧ m.successful_orders = e.successful_orders

/-! ## Lemmas about the order-id rendering -/

lemma digitChar_toNat (d : Nat) (h : d < 10) : (Nat.digitChar d).toNat - 48 = d := by
  interval_cases d <;> rfl

lemma toDecRev_digit_lt (f : Nat) : ∀ n, ∀ d ∈ toDecRev f n, d < 10 := by
  induction f with
  | zero => intro n d hd; simp [toDecRev] at hd
  | succ f ih =>
    intro n d hd
    rw [toDecRev] at hd
    by_cases hn : n = 0
    · rw [if_pos hn] at hd; simp at hd
    · rw [if_neg hn] at hd
      rcases List.mem_cons.mp hd with h1 | h1
      · omega
      · exact ih _ _ h1

lemma toDecRev_foldr (f : Nat) : ∀ n, n ≤ f →
    (toDecRev f n).foldr (fun d acc => 10 * acc + d) 0 = n := by
  induction f with
  | zero => intro n h; interval_cases n; rfl
  | succ f ih =>
    intro n h
    rw [toDecRev]
    by_cases hn : n = 0
    · rw [if_pos hn]; simp [hn]
    · have hlt : n / 10 < n := Nat.div_lt_self (Nat.pos_of_ne_zero hn) (by norm_num)
      rw [if_neg hn, List.foldr_cons, ih _ (by omega)]
      omega

lemma foldr_digitChar (ds : List Nat) (h : ∀ d ∈ ds, d < 10) :
    ds.foldr (fun d acc => 10 * acc + ((Nat.digitChar d).toNat - 48)) 0
      = ds.foldr (fun d acc => 10 * acc + d) 0 := by
  induction ds with
  | nil => rfl
  | cons d ds ih =>
    rw [List.foldr_cons, List.foldr_cons, ih (fun x hx => h x (List.mem_cons_of_mem d hx)),
      digitChar_toNat d (h d (List.mem_cons_self d ds))]

lemma foldr_map_digitChar (ds : List Nat) :
    (ds.map Nat.digitChar).foldr (fun c acc => 10 * acc + (c.toNat - 48)) 0
      = ds.foldr (fun d acc => 10 * acc + ((Nat.digitChar d).toNat - 48)) 0 := by
  induction ds with
  | nil => rfl
  | cons d ds ih => simp [List.foldr_cons, ih]

lemma decodeDec_decDigits (n : Nat) : decodeDec (decDigits n) = n := by
  by_cases h : n = 0
  · subst h; rfl
  · unfold decDigits decodeDec
    rw [if_neg h, List.foldl_reverse, foldr_map_digitChar,
      foldr_digitChar _ (toDecRev_digit_lt n n), toDecRev_foldr n n le_rfl]

lemma decodeDec_pad5 (l : List Char) : decodeDec (pad5 l) = decodeDec l := by
  unfold pad5 decodeDec
  rw [List.foldl_append]
  have hz : ∀ k, (List.replicate k '0').foldl (fun a c => 10 * a + (c.toNat - 48)) 0 = 0 := by
    intro k
    induction k with
    | zero => rfl
    | succ k ih => rw [List.replicate_succ, List.foldl_cons]; exact ih
  rw [hz]

lemma orderIdStr_inj {m n : Nat} (h : orderIdStr m = orderIdStr n) : m = n := by
  have hd : orderIdChars m = orderIdChars n := congrArg String.data h
  unfold orderIdChars at hd
  simp only [List.cons.injEq, true_and] at hd
  have := congrArg decodeDec hd
  rwa [decodeDec_pad5, decodeDec_pad5, decodeDec_decDigits, decodeDec_decDigits] at this

lemma toDecRev_length_le (f : Nat) : ∀ n k, n < 10 ^ k → (toDecRev f n).length ≤ k := by
  induction f with
  | zero => intro n k _; simp [toDecRev]
  | succ f ih =>
    intro n k h
    rw [toDecRev]
    by_cases hn : n = 0
    · rw [if_pos hn]; simp
    · match k with
      | 0 => simp at h; omega
      | k + 1 =>
        rw [if_neg hn, List.length_cons]
        have hdiv : n / 10 < 10 ^ k := by
          have hmul : n < 10 * 10 ^ k := by
            calc n < 10 ^ (k + 1) := h
              _ = 10 * 10 ^ k := by ring
          exact Nat.div_lt_of_lt_mul hmul
        exact Nat.succ_le_succ (ih _ _ hdiv)

lemma decDigits_length_le (n : Nat) (h : n < 100000) : (decDigits n).length ≤ 5 := by
  unfold decDigits
  split
  · simp
  · rw [List.length_reverse, List.length_map]
    exact toDecRev_length_le n n 5 (by norm_num; omega)

lemma orderIdStr_length (n : Nat) (h1 : 1 ≤ n) (h2 : n ≤ 99999) :
    (orderIdStr n).length = 11 := by
  have hlen : (decDigits n).length ≤ 5 := decDigits_length_le n (by omega)
  show (orderIdChars n).length = 11
  simp only [orderIdChars, pad5, List.length_cons, List.length_append, List.length_replicate]
  omega

/-! ## Lemmas about the enhanced-server state machine -/

lemma runPosts_nil (s : EState) : runPosts [] s = s := rfl

lemma runPosts_cons (p : String × ℚ × Nat) (l : List (String × ℚ × Nat)) (s : EState) :
    runPosts (p :: l) s = runPosts l (doPOST p.1 p.2.1 p.2.2 s).1 := rfl

lemma ledgerInv_init (S : Nat) : LedgerInv S (initE S) := by
  refine ⟨?_, ?_, ?_, ?_⟩ <;> simp [initE]

lemma ledgerInv_doPOST (S : Nat) (p : String) (rt : ℚ) (ts : Nat) (s : EState)
    (h : LedgerInv S s) : LedgerInv S (doPOST p rt ts s).1 := by
  obtain ⟨h1, h2, h3, h4⟩ := h
  simp only [LedgerInv, doPOST, trackerEnter, trackerExit]
  split_ifs with hp hstock <;>
    refine ⟨?_, ?_, ?_, ?_⟩ <;>
    simp only [List.length_append, List.length_cons, List.length_nil] <;>
    omega

lemma ledgerInv_runPosts (S : Nat) (inputs : List (String × ℚ × Nat)) (s : EState)
    (h : LedgerInv S s) : LedgerInv S (runPosts inputs s) := by
  induction inputs generalizing s with
  | nil => exact h
  | cons p l ih =>
    rw [runPosts_cons]
    exact ih _ (ledgerInv_doPOST S p.1 p.2.1 p.2.2 s h)

lemma doPOST_succ_status (p : String) (rt : ℚ) (ts : Nat) (s : EState) :
    (doPOST p rt ts s).1.successful_orders
      = s.successful_orders + (if (doPOST p rt ts s).2.1 = 201 then 1 else 0) := by
  simp only [doPOST, trackerEnter, trackerExit]
  split_ifs <;> simp_all

lemma doPOST_failed_status (p : String) (rt : ℚ) (ts : Nat) (s : EState) :
    (doPOST p rt ts s).1.failed_orders
      = s.failed_orders + (if (doPOST p rt ts s).2.1 = 409 then 1 else 0) := by
  simp only [doPOST, trackerEnter, trackerExit]
  split_ifs <;> simp_all

lemma doPOST_orders_count (rt : ℚ) (ts : Nat) (s : EState) :
    (doPOST ordersPath rt ts s).1.order_count = s.order_count + 1 := by
  simp only [doPOST, trackerEnter, trackerExit]
  split_ifs <;> simp_all

lemma runPostsTrace_succ (inputs : List (String × ℚ × Nat)) (s : EState) :
    (runPostsTrace inputs s).1.successful_orders
      = s.successful_orders + (runPostsTrace inputs s).2.count 201 := by
  induction inputs generalizing s with
  | nil => simp [runPostsTrace]
  | cons p l ih =>
    rw [runPostsTrace]
    dsimp only
    rw [ih, doPOST_succ_status p.1 p.2.1 p.2.2 s, List.count_cons]
    simp only [beq_iff_eq]
    split_ifs <;> omega

lemma runPostsTrace_failed (inputs : List (String × ℚ × Nat)) (s : EState) :
    (runPostsTrace inputs s).1.failed_orders
      = s.failed_orders + (runPostsTrace inputs s).2.count 409 := by
  induction inputs generalizing s with
  | nil => simp [runPostsTrace]
  | cons p l ih =>
    rw [runPostsTrace]
    dsimp only
    rw [ih, doPOST_failed_status p.1 p.2.1 p.2.2 s, List.count_cons]
    simp only [beq_iff_eq]
    split_ifs <;> omega

/-! ## Lemmas about the concurrency tracker -/

lemma trackRun_cons (e : TEvent) (evs : List TEvent) (t : TrackSt) :
    trackRun (e :: evs) t = trackRun evs (trackStep t e) := rfl

lemma trackRun_append (a b : List TEvent) (t : TrackSt) :
    trackRun (a ++ b) t = trackRun b (trackRun a t) := by
  simp [trackRun, List.foldl_append]

lemma trackStep_max_le (t : TrackSt) (e : TEvent) :
    t.maxObserved ≤ (trackStep t e).maxObserved := by
  cases e <;> simp only [trackStep] <;> first | split_ifs <;> omega | omega

lemma trackRun_max_le (evs : List TEvent) (t : TrackSt) :
    t.maxObserved ≤ (trackRun evs t).maxObserved := by
  induction evs generalizing t with
  | nil => exact le_rfl
  | cons e evs ih => exact le_trans (trackStep_max_le t e) (ih (trackStep t e))

lemma trackStep_inFlight_le (t : TrackSt) (e : TEvent)
    (h : t.inFlight ≤ t.maxObserved) :
    (trackStep t e).inFlight ≤ (trackStep t e).maxObserved := by
  cases e <;> simp only [trackStep] <;> first | split_ifs <;> omega | omega

lemma trackRun_inFlight_le (evs : List TEvent) (t : TrackSt)
    (h : t.inFlight ≤ t.maxObserved) :
    (trackRun evs t).inFlight ≤ (trackRun evs t).maxObserved := by
  induction evs generalizing t with
  | nil => exact h
  | cons e evs ih => exact ih (trackStep t e) (trackStep_inFlight_le t e h)

/-! ## Correspondence between the two servers -/

lemma mockRun_nil (m : MState) : mockRun [] m = m := rfl

lemma mockRun_cons (p : String) (ps : List String) (m : MState) :
    mockRun (p :: ps) m = mockRun ps (mockDoPOST p m).1 := rfl

lemma corr_doPOST (p : String) (rt : ℚ) (ts : Nat) (m : MState) (e : EState)
    (h : Corr m e) :
    Corr (mockDoPOST p m).1 (doPOST p rt ts e).1
      ∧ (mockDoPOST p m).2.1 = (doPOST p rt ts e).2.1 := by
  obtain ⟨h1, h2, h3⟩ := h
  simp only [Corr, mockDoPOST, doPOST, trackerEnter, trackerExit, h1, h2, h3]
  split_ifs <;> simp_all

lemma corr_run (inputs : List (String × ℚ × Nat)) (m : MState) (e : EState)
    (h : Corr m e) :
    Corr (mockRun (inputs.map (fun x => x.1)) m) (runPosts inputs e) := by
  induction inputs generalizing m e with
  | nil => exact h
  | cons p l ih =>
    rw [List.map_cons, mockRun_cons, runPosts_cons]
    exact ih _ _ (corr_doPOST p.1 p.2.1 p.2.2 m e h).1

lemma runPosts_orders_count (l : List (ℚ × Nat)) (s : EState) :
    (runPosts (ordersInputs l) s).order_count = s.order_count + l.length := by
  induction l generalizing s with
  | nil => simp [ordersInputs, runPosts_nil]
  | cons x l ih =>
    show (runPosts (ordersInputs (x :: l)) s).order_count = _
    rw [ordersInputs, List.map_cons, runPosts_cons]
    have := ih (doPOST ordersPath x.1 x.2 s).1
    rw [ordersInputs] at this
    rw [this, doPOST_orders_count]
    simp [List.length_cons]
    omega

lemma run_counts (S : Nat) (l : List (ℚ × Nat)) :
    (runPostsTrace (ordersInputs l) (initE S)).1.successful_orders = min l.length S
    ∧ (runPostsTrace (ordersInputs l) (initE S)).1.failed_orders
        = l.length - min l.length S := by
  have hInv := ledgerInv_runPosts S (ordersInputs l) (initE S) (ledgerInv_init S)
  have hcount := runPosts_orders_count l (initE S)
  unfold runPosts at hInv hcount
  obtain ⟨i1, i2, i3, i4⟩ := hInv
  rw [show (initE S).order_count = 0 from rfl] at hcount
  exact ⟨by omega, by omega⟩

/-! ## The claims -/

/-- C1: starting from `availableStock = initialStock = S`, a sequence of `N`
order-attempt calls produces exactly `min(N, S)` CONFIRMED (201) outcomes and
`N - min(N, S)` REJECTED (409) outcomes, and `availableStock` is never
negative after any call (i.e. after every prefix of the sequence). -/
theorem C1_min_confirmed_rest_rejected (S : Nat) (l : List (ℚ × Nat)) :
    (runPostsTrace (ordersInputs l) (initE S)).2.count 201 = min l.length S
    ∧ (runPostsTrace (ordersInputs l) (initE S)).2.count 409 = l.length - min l.length S
    ∧ ∀ pre suf, l = pre ++ suf →
        0 ≤ (runPosts (ordersInputs pre) (initE S)).available_stock := by
  obtain ⟨hs, hf⟩ := run_counts S l
  have hsucc := runPostsTrace_succ (ordersInputs l) (initE S)
  have hfail := runPostsTrace_failed (ordersInputs l) (initE S)
  rw [show (initE S).successful_orders = 0 from rfl] at hsucc
  rw [show (initE S).failed_orders = 0 from rfl] at hfail
  refine ⟨by omega, by omega, ?_⟩
  intro pre suf _
  have hInv := ledgerInv_runPosts S (ordersInputs pre) (initE S) (ledgerInv_init S)
  obtain ⟨i1, i2, i3, i4⟩ := hInv
  omega

/-- Witness for C1 at `S = 1` and two order attempts: one 201, one 409,
stock non-negative after the first call. -/
theorem C1_witness :
    (runPostsTrace (ordersInputs [((0 : ℚ), (0 : Nat)), (0, 0)]) (initE 1)).2.count 201
        = min 2 1
    ∧ (runPostsTrace (ordersInputs [((0 : ℚ), (0 : Nat)), (0, 0)]) (initE 1)).2.count 409
        = 2 - min 2 1
    ∧ 0 ≤ (runPosts (ordersInputs [((0 : ℚ), (0 : Nat))]) (initE 1)).available_stock := by
  have h := C1_min_confirmed_rest_rejected 1 [(0, 0), (0, 0)]
  exact ⟨h.1, h.2.1, h.2.2 [(0, 0)] [(0, 0)] rfl⟩

/-- C2: after every completed run of order attempts,
`availableStock = initialStock - successfulOrders` and
`totalOrders = successfulOrders + failedOrders`. -/
theorem C2_ledger_equations (S : Nat) (inputs : List (String × ℚ × Nat)) :
    (runPosts inputs (initE S)).available_stock
        = (S : Int) - ((runPosts inputs (initE S)).successful_orders : Int)
    ∧ (runPosts inputs (initE S)).order_count
        = (runPosts inputs (initE S)).successful_orders
            + (runPosts inputs (initE S)).failed_orders := by
  have h := ledgerInv_runPosts S inputs (initE S) (ledgerInv_init S)
  exact ⟨h.1, h.2.1⟩

/-- C3 counterexample: in `mock_server.py`, the second order attempt with
initial stock 1 is REJECTED with status 409, and its body has no
`orderId` field — the claim that the `orderId` field is present in every
409 body is false for `mock_server.py`. -/
theorem C3_counterexample :
    (mockDoPOST ordersPath ((mockDoPOST ordersPath (mockInit 1)).1)).2.1 = 409
    ∧ ((mockDoPOST ordersPath ((mockDoPOST ordersPath (mockInit 1)).1)).2.2).lookup
        "orderId" = none := by
  constructor <;> decide

/-- C3 (amended): in `enhanced_mock_server.py` a CONFIRMED outcome yields
201 with `orderId`, `status`, `message` and `remainingStock`, and a
REJECTED outcome yields 409 with `error = "INSUFFICIENT_STOCK"`, a
`message` and the assigned `orderId`; in `mock_server.py` the 201 body has
`orderId`, `status` and `message` but no `remainingStock`, and the 409
body has `error` and `message` but no `orderId`. -/
theorem C3_amended (s : EState) (m : MState) (rt : ℚ) (ts : Nat) :
    (0 < s.available_stock →
      (doPOST ordersPath rt ts s).2.1 = 201
      ∧ ((doPOST ordersPath rt ts s).2.2).lookup "orderId"
          = some (JVal.s (orderIdStr (s.order_count + 1)))
      ∧ ((doPOST ordersPath rt ts s).2.2).lookup "status" = some (JVal.s "CONFIRMED")
      ∧ (((doPOST ordersPath rt ts s).2.2).lookup "message").isSome = true
      ∧ ((doPOST ordersPath rt ts s).2.2).lookup "remainingStock"
          = some (JVal.i (s.available_stock - 1)))
    ∧ (s.available_stock ≤ 0 →
      (doPOST ordersPath rt ts s).2.1 = 409
      ∧ ((doPOST ordersPath rt ts s).2.2).lookup "error"
          = some (JVal.s "INSUFFICIENT_STOCK")
      ∧ (((doPOST ordersPath rt ts s).2.2).lookup "message").isSome = true
      ∧ ((doPOST ordersPath rt ts s).2.2).lookup "orderId"
          = some (JVal.s (orderIdStr (s.order_count + 1))))
    ∧ (0 < m.available_stock →
      (mockDoPOST ordersPath m).2.1 = 201
      ∧ ((mockDoPOST ordersPath m).2.2).lookup "orderId"
          = some (JVal.s (orderIdStr (m.order_count + 1)))
      ∧ ((mockDoPOST ordersPath m).2.2).lookup "status" = some (JVal.s "CONFIRMED")
      ∧ (((mockDoPOST ordersPath m).2.2).lookup "message").isSome = true
      ∧ ((mockDoPOST ordersPath m).2.2).lookup "remainingStock" = none)
    ∧ (m.available_stock ≤ 0 →
      (mockDoPOST ordersPath m).2.1 = 409
      ∧ ((mockDoPOST ordersPath m).2.2).lookup "error"
          = some (JVal.s "INSUFFICIENT_STOCK")
      ∧ (((mockDoPOST ordersPath m).2.2).lookup "message").isSome = true
      ∧ ((mockDoPOST ordersPath m).2.2).lookup "orderId" = none) := by
  refine ⟨fun h => ?_, fun h => ?_, fun h => ?_, fun h => ?_⟩
  · simp [doPOST, trackerEnter, trackerExit, JObj.lookup, List.lookup, h]
  · simp [doPOST, trackerEnter, trackerExit, JObj.lookup, List.lookup, not_lt.mpr h]
  · simp [mockDoPOST, JObj.lookup, List.lookup, h]
  · simp [mockDoPOST, JObj.lookup, List.lookup, not_lt.mpr h]

/-- Witness for C3 (amended) at stock 1 (confirmed branches) and stock 0
(rejected branches). -/
theorem C3_amended_witness :
    (doPOST ordersPath 0 0 (initE 1)).2.1 = 201
    ∧ ((doPOST ordersPath 0 0 (initE 1)).2.2).lookup "remainingStock" = some (JVal.i 0)
    ∧ (doPOST ordersPath 0 0 (initE 0)).2.1 = 409
    ∧ ((doPOST ordersPath 0 0 (initE 0)).2.2).lookup "orderId"
        = some (JVal.s (orderIdStr 1))
    ∧ (mockDoPOST ordersPath (mockInit 1)).2.1 = 201
    ∧ ((mockDoPOST ordersPath (mockInit 1)).2.2).lookup "remainingStock" = none
    ∧ (mockDoPOST ordersPath (mockInit 0)).2.1 = 409
    ∧ ((mockDoPOST ordersPath (mockInit 0)).2.2).lookup "orderId" = none := by
  have h1 := (C3_amended (initE 1) (mockInit 1) 0 0).1 (by decide)
  have h2 := (C3_amended (initE 0) (mockInit 1) 0 0).2.1 (by decide)
  have h3 := (C3_amended (initE 0) (mockInit 1) 0 0).2.2.1 (by decide)
  have h4 := (C3_amended (initE 0) (mockInit 0) 0 0).2.2.2 (by decide)
  exact ⟨h1.1, by simpa using h1.2.2.2.2, h2.1, by simpa using h2.2.2.2,
    h3.1, h3.2.2.2.2, h4.1, h4.2.2.2⟩

/-- C4: every `do_POST` invocation of the enhanced server leaves
`concurrent_requests` unchanged on every exit path — the `finally` block
decrements the counter incremented on entry exactly once, whether the
body completed or raised at any of its failure points. -/
theorem C4_inflight_always_released (fp : FailPoint) (path : String) (rt : ℚ)
    (ts : Nat) (s : EState) :
    (doPOSTexc fp path rt ts s).1.concurrent_requests = s.concurrent_requests := by
  simp only [doPOSTexc, trackerEnter, trackerExit]
  split_ifs <;> dsimp only <;> omega

/-- C5: `max_concurrent` is monotonically non-decreasing along any trace of
enter/exit events and, at every point of the run, dominates every value
`concurrent_requests` has held at any earlier point. -/
theorem C5_max_concurrent_dominates (evs pre suf : List TEvent)
    (h : evs = pre ++ suf) :
    (trackRun pre trackInit).maxObserved ≤ (trackRun evs trackInit).maxObserved
    ∧ (trackRun pre trackInit).inFlight ≤ (trackRun evs trackInit).maxObserved := by
  subst h
  rw [trackRun_append]
  have h1 : (trackRun pre trackInit).inFlight ≤ (trackRun pre trackInit).maxObserved :=
    trackRun_inFlight_le pre trackInit le_rfl
  have h2 := trackRun_max_le suf (trackRun pre trackInit)
  exact ⟨h2, le_trans h1 h2⟩

/-- Witness for C5 on the trace enter, enter, exit with the prefix of the
first two events. -/
theorem C5_witness :
    (trackRun [TEvent.enter, TEvent.enter] trackInit).maxObserved
        ≤ (trackRun [TEvent.enter, TEvent.enter, TEvent.exit] trackInit).maxObserved
    ∧ (trackRun [TEvent.enter, TEvent.enter] trackInit).inFlight
        ≤ (trackRun [TEvent.enter, TEvent.enter, TEvent.exit] trackInit).maxObserved :=
  C5_max_concurrent_dominates [TEvent.enter, TEvent.enter, TEvent.exit]
    [TEvent.enter, TEvent.enter] [TEvent.exit] rfl

/-- C6 counterexample: the format `"{:05d}"` zero-pads only up to a
minimum width of five digits, so the id of attempt 100000 is one
character longer than the id of attempt 1 — the id string does not have
the same fixed width for every attempt number. -/
theorem C6_counterexample : (orderIdStr 100000).length ≠ (orderIdStr 1).length := by
  decide

/-- C6 (amended): every order attempt assigns the next sequential 1-based
order id `ORDER-<n>` with `n` zero-padded to a minimum width of five
digits (so `ORDER-00001` for the first attempt); ids of distinct attempts
are distinct, and for attempt numbers 1 through 99999 the id has the
fixed width 11; attempt numbers of 100000 or more render wider. -/
theorem C6_amended :
    orderIdStr 1 = "ORDER-00001"
    ∧ (∀ (S : Nat) (l : List (ℚ × Nat)) (rt : ℚ) (ts : Nat),
        ((doPOST ordersPath rt ts (runPosts (ordersInputs l) (initE S))).2.2).lookup
            "orderId" = some (JVal.s (orderIdStr (l.length + 1))))
    ∧ (∀ m n : Nat, m ≠ n → orderIdStr m ≠ orderIdStr n)
    ∧ (∀ n : Nat, 1 ≤ n → n ≤ 99999 → (orderIdStr n).length = 11) := by
  refine ⟨by decide, ?_, ?_, ?_⟩
  · intro S l rt ts
    have hc := runPosts_orders_count l (initE S)
    rw [show (initE S).order_count = 0 from rfl] at hc
    simp only [doPOST, trackerEnter, trackerExit]
    split_ifs <;> simp_all [JObj.lookup, List.lookup]
  · intro m n hmn heq
    exact hmn (orderIdStr_inj heq)
  · exact orderIdStr_length

/-- Witness for C6 (amended): the second attempt after one order gets
`ORDER-00002`; ids 1 and 2 differ; the id of attempt 7 has width 11. -/
theorem C6_amended_witness :
    ((doPOST ordersPath 0 0 (runPosts (ordersInputs [((0 : ℚ), (0 : Nat))])
        (initE 5))).2.2).lookup "orderId" = some (JVal.s (orderIdStr 2))
    ∧ orderIdStr 1 ≠ orderIdStr 2
    ∧ (orderIdStr 7).length = 11 := by
  obtain ⟨-, h2, h3, h4⟩ := C6_amended
  exact ⟨by simpa using h2 5 [(0, 0)] 0 0, h3 1 2 (by decide), h4 7 (by decide) (by decide)⟩

/-- C7: the metrics snapshot's `successRate` equals
`successfulOrders / totalOrders * 100` exactly when `totalOrders > 0`,
and equals 0 when `totalOrders = 0`. -/
theorem C7_success_rate (S : Nat) (tt : ℚ) (s : EState) :
    (0 < s.order_count →
      (metricsSummary S tt s).successRate
        = (s.successful_orders : ℚ) / (s.order_count : ℚ) * 100)
    ∧ (s.order_count = 0 → (metricsSummary S tt s).successRate = 0) := by
  constructor
  · intro h
    simp [metricsSummary, h]
  · intro h
    simp [metricsSummary, h]

/-- Witness for C7: one success out of two orders gives rate 50, and the
fresh state gives rate 0. -/
theorem C7_witness :
    (metricsSummary 5 0 ⟨3, 2, 1, 1, 0, 0, [1, 2], [0]⟩).successRate = (1 : ℚ) / 2 * 100
    ∧ (metricsSummary 5 0 (initE 5)).successRate = 0 := by
  constructor
  · have h := (C7_success_rate 5 0 ⟨3, 2, 1, 1, 0, 0, [1, 2], [0]⟩).1 (by decide)
    simpa using h
  · exact (C7_success_rate 5 0 (initE 5)).2 rfl

/-- C8: with no response-time samples the metrics snapshot reports average,
minimum and maximum response time 0 and sample count 0. -/
theorem C8_empty_sample_stats (s : EState) (h : s.response_times = []) :
    responseTimeStats s = { avg := 0, minMs := 0, maxMs := 0, count := 0 } := by
  simp [responseTimeStats, h]

/-- Witness for C8 at the fresh state, whose sample list is empty. -/
theorem C8_witness :
    responseTimeStats (initE 5) = { avg := 0, minMs := 0, maxMs := 0, count := 0 } :=
  C8_empty_sample_stats (initE 5) rfl

/-- C9: after every run of POSTs the number of response-time samples (the
snapshot's `responseTime.count`) equals `totalOrders`; every completed
order-attempt POST appends exactly one sample, and a POST to an
unrecognized path appends none. -/
theorem C9_one_sample_per_order (S : Nat) (inputs : List (String × ℚ × Nat)) :
    (responseTimeStats (runPosts inputs (initE S))).count
        = (runPosts inputs (initE S)).order_count
    ∧ (∀ (rt : ℚ) (ts : Nat) (s : EState),
        (doPOST ordersPath rt ts s).1.response_times = s.response_times ++ [rt])
    ∧ (∀ (p : String) (rt : ℚ) (ts : Nat) (s : EState), p ≠ ordersPath →
        (doPOST p rt ts s).1.response_times = s.response_times) := by
  refine ⟨?_, ?_, ?_⟩
  · exact (ledgerInv_runPosts S inputs (initE S) (ledgerInv_init S)).2.2.2
  · intro rt ts s
    simp only [doPOST, trackerEnter, trackerExit]
    split_ifs <;> simp_all
  · intro p rt ts s hp
    simp [doPOST, trackerEnter, trackerExit, hp]

/-- Witness for C9: a run of one order attempt, one concrete order-path
append, and one unrecognized-path POST appending nothing. -/
theorem C9_witness :
    (responseTimeStats (runPosts [(ordersPath, 5, 0)] (initE 3))).count
        = (runPosts [(ordersPath, 5, 0)] (initE 3)).order_count
    ∧ (doPOST ordersPath 5 0 (initE 3)).1.response_times = [] ++ [5]
    ∧ (doPOST "/metrics" 5 0 (initE 3)).1.response_times = [] := by
  obtain ⟨h1, h2, h3⟩ := C9_one_sample_per_order 3 [(ordersPath, 5, 0)]
  exact ⟨h1, by simpa using h2 5 0 (initE 3),
    by simpa using h3 "/metrics" 5 0 (initE 3) (by decide)⟩

lemma mock_orderId_lookup (m : MState) :
    ((mockDoPOST ordersPath m).2.2).lookup "orderId"
      = if 0 < m.available_stock then some (JVal.s (orderIdStr (m.order_count + 1)))
        else none := by
  simp only [mockDoPOST]
  split_ifs <;> simp_all [JObj.lookup, List.lookup]

lemma doPOST_orderId_lookup (rt : ℚ) (ts : Nat) (s : EState) :
    ((doPOST ordersPath rt ts s).2.2).lookup "orderId"
      = some (JVal.s (orderIdStr (s.order_count + 1))) := by
  simp only [doPOST, trackerEnter, trackerExit]
  split_ifs <;> simp_all [JObj.lookup, List.lookup]

/-- C10: from the same initial stock, `mock_server.py` and
`enhanced_mock_server.py` traverse corresponding states: after any common
request sequence their stock, order count and success count agree; the
mock server's derived failed count `totalOrders - successfulOrders`
equals the enhanced server's `failed_orders`; the next request gets the
same status code from both, and whenever the mock response body carries
an `orderId` the enhanced response body carries the same one. -/
theorem C10_mock_enhanced_agree (S : Nat) (inputs : List (String × ℚ × Nat)) :
    (mockRun (inputs.map (fun x => x.1)) (mockInit S)).available_stock
        = (runPosts inputs (initE S)).available_stock
    ∧ (mockRun (inputs.map (fun x => x.1)) (mockInit S)).order_count
        = (runPosts inputs (initE S)).order_count
    ∧ (mockRun (inputs.map (fun x => x.1)) (mockInit S)).successful_orders
        = (runPosts inputs (initE S)).successful_orders
    ∧ (mockRun (inputs.map (fun x => x.1)) (mockInit S)).order_count
          - (mockRun (inputs.map (fun x => x.1)) (mockInit S)).successful_orders
        = (runPosts inputs (initE S)).failed_orders
    ∧ (∀ (p : String) (rt : ℚ) (ts : Nat),
        (mockDoPOST p (mockRun (inputs.map (fun x => x.1)) (mockInit S))).2.1
          = (doPOST p rt ts (runPosts inputs (initE S))).2.1)
    ∧ (∀ (rt : ℚ) (ts : Nat) (v : JVal),
        ((mockDoPOST ordersPath (mockRun (inputs.map (fun x => x.1))
            (mockInit S))).2.2).lookup "orderId" = some v →
        ((doPOST ordersPath rt ts (runPosts inputs (initE S))).2.2).lookup "orderId"
          = some v) := by
  have hcorr := corr_run inputs (mockInit S) (initE S) ⟨rfl, rfl, rfl⟩
  obtain ⟨c1, c2, c3⟩ := hcorr
  have hInv := ledgerInv_runPosts S inputs (initE S) (ledgerInv_init S)
  obtain ⟨i1, i2, i3, i4⟩ := hInv
  refine ⟨c1, c2, c3, by omega, ?_, ?_⟩
  · intro p rt ts
    exact (corr_doPOST p rt ts _ _ ⟨c1, c2, c3⟩).2
  · intro rt ts v hv
    rw [mock_orderId_lookup] at hv
    rw [doPOST_orderId_lookup, ← c2]
    by_cases hstock : 0 < (mockRun (inputs.map (fun x => x.1)) (mockInit S)).available_stock
    · rw [if_pos hstock] at hv
      exact hv
    · rw [if_neg hstock] at hv
      exact absurd hv (by simp)

/-- Witness for C10 at initial stock 1 with the empty preceding sequence:
the mock body's `orderId` is `ORDER-00001` and the enhanced body carries
the same id; the status codes for an unrecognized path agree. -/
theorem C10_witness :
    ((doPOST ordersPath 0 0 (runPosts [] (initE 1))).2.2).lookup "orderId"
        = some (JVal.s (orderIdStr 1))
    ∧ (mockDoPOST "/metrics" (mockRun ([] : List String) (mockInit 1))).2.1
        = (doPOST "/metrics" 0 0 (runPosts [] (initE 1))).2.1 := by
  obtain ⟨-, -, -, -, h5, h6⟩ := C10_mock_enhanced_agree 1 []
  exact ⟨h6 0 0 (JVal.s (orderIdStr 1)) (by decide), h5 "/metrics" 0 0⟩
